import Mathlib

/-!
Shallow embedding of the BansheeEngine `CoreObject` cross-thread resource
lifecycle protocol (`CmCoreObject.cpp`): per-object lifecycle flags, the
core-thread command queue with strong references captured at enqueue time,
the delayed-deletion (self-resurrection) path, and the shared
condition-variable synchronization for initialization.

Machine state that in C++ lives across threads (the flag bitfield, the
reference count of the `shared_ptr` group, the command queue, the number of
condition-variable broadcasts) is collected in one explicit record
`EngineState`; each C++ member function becomes a function on that record,
fallible ones (those that can raise `CM_EXCEPT`) returning `Except`.
`CM_DEBUG_MODE` is an explicit boolean parameter `dbg`.
-/

/-- The per-object lifecycle flag bitfield `mFlags`.
Modelled from the spec: the flag accessors (`isInitialized`,
`isScheduledToBeInitialized`, `isScheduledToBeDestroyed`,
`requiresInitOnCoreThread` and their setters) are declared in the header
`CmCoreObject.h`, which is not part of the sources; only their uses appear in
the `.cpp`. Per the spec the state is tracked by per-object flags, one bit
each; the bitfield is modelled as a record of booleans, with
`CGO_INIT_ON_CORE_THREAD` the immutable bit set by the constructor. -/
structure Flags where
  initialized : Bool
  scheduledInit : Bool
  scheduledDelete : Bool
  initOnCoreThread : Bool
deriving Repr, DecidableEq

def Flags.isInitialized (f : Flags) : Bool := f.initialized

def Flags.isScheduledToBeInitialized (f : Flags) : Bool := f.scheduledInit

def Flags.isScheduledToBeDestroyed (f : Flags) : Bool := f.scheduledDelete

def Flags.requiresInitOnCoreThread (f : Flags) : Bool := f.initOnCoreThread

def Flags.setIsInitialized (f : Flags) (b : Bool) : Flags := { f with initialized := b }

def Flags.setScheduledToBeInitialized (f : Flags) (b : Bool) : Flags :=
  { f with scheduledInit := b }

def Flags.setScheduledToBeDeleted (f : Flags) (b : Bool) : Flags :=
  { f with scheduledDelete := b }

/-- The fatal errors (`CM_EXCEPT(InternalErrorException, ...)` sites) of
`CmCoreObject.cpp`, one constructor per raise site; `nullThis` stands for the
undefined behaviour of dereferencing a null result of `mThis.lock()`. -/
inductive CmError where
  | destructorNotDestroyed
  | destructorLiveRefs
  | alreadyInitialized
  | destroyNotInitialized
  | syncDeadlock
  | syncNotScheduled
  | deletedWhileScheduledInit
  | nullThis
deriving Repr, DecidableEq

/-- The two deferred callables `CoreObject` ever queues: a bound
`initialize_internal` or a bound `destroy_internal`. -/
inductive CmdKind where
  | initCmd
  | destroyCmd
deriving Repr, DecidableEq

/-- A queued command: the callable plus whether the `shared_ptr` captured at
enqueue time (via `executeGpuCommand`) is non-null, i.e. whether the command
holds a strong reference to the object. -/
structure QueuedCmd where
  kind : CmdKind
  hasRef : Bool
deriving Repr, DecidableEq

/-- The whole observable machine state for one `CoreObject`: its flag
bitfield, the strong-reference count of its `shared_ptr` group split by who
holds the references (external callers, queued commands, the temporary
resurrection handle of the delayed deleter), whether the weak self-pointer
`mThis` was bound by `_setThisPtr`, the core-thread command queue, the number
of `CM_THREAD_NOTIFY_ALL` broadcasts on the shared condition variable,
whether the object is registered in the `CoreObjectManager`, and whether the
raw object has been physically deallocated. -/
structure EngineState where
  flags : Flags
  extRefs : Nat
  pendingCmdRefs : Nat
  tempRefs : Nat
  thisBound : Bool
  queue : List QueuedCmd
  broadcasts : Nat
  registered : Bool
  deallocated : Bool
deriving Repr, DecidableEq

/-- Total strong-reference count of the object's `shared_ptr` group. -/
def totalRefs (s : EngineState) : Nat := s.extRefs + s.pendingCmdRefs + s.tempRefs

/-- `mThis.lock()` yields a non-null strong handle exactly when the weak
pointer was bound by `_setThisPtr` and some strong reference is still alive. -/
def lockThis (s : EngineState) : Bool := s.thisBound && decide (0 < totalRefs s)

/-- `mThis.expired()`: true when the weak pointer was never bound or every
strong reference of its group is gone. -/
def thisExpired (s : EngineState) : Bool := !s.thisBound || decide (totalRefs s = 0)

/-- `CoreObject::CoreObject(bool initializeOnRenderThread)`: registers the
object with the manager, starts with `mFlags = 0`, then sets
`CGO_INIT_ON_CORE_THREAD` when requested. No shared ownership exists yet. -/
def CoreObject.construct (initializeOnRenderThread : Bool) : EngineState :=
  { flags :=
      { initialized := false
        scheduledInit := false
        scheduledDelete := false
        initOnCoreThread := initializeOnRenderThread }
    extRefs := 0
    pendingCmdRefs := 0
    tempRefs := 0
    thisBound := false
    queue := []
    broadcasts := 0
    registered := true
    deallocated := false }

/-- Modelled from the spec: `bindSelfReference` — the layer that first wraps
the raw object in shared ownership creates one strong handle and calls
`_setThisPtr` (visible in the sources) with it, establishing the weak
self-reference. -/
def wrapShared (s : EngineState) : EngineState :=
  { s with extRefs := s.extRefs + 1, thisBound := true }

/-- An additional external strong reference (copying the `shared_ptr`). -/
def addExtRef (s : EngineState) : EngineState := { s with extRefs := s.extRefs + 1 }

/-- `CoreObject::~CoreObject()`: fatal if the object still reports
`isInitialized()`; in debug mode, fatal if `mThis` still resolves to live
strong references; otherwise unregisters from the manager and the raw memory
is freed. -/
def CoreObject.destructorRun (dbg : Bool) (s : EngineState) : Except CmError EngineState :=
  if s.flags.isInitialized then
    .error .destructorNotDestroyed
  else if dbg && !thisExpired s then
    .error .destructorLiveRefs
  else
    .ok { s with registered := false, deallocated := true }

/-- `CoreObject::destroy_internal()`: debug-mode fatal when the object is not
initialized; clears the initialized flag. -/
def CoreObject.destroy_internal (dbg : Bool) (s : EngineState) : Except CmError EngineState :=
  if dbg && !s.flags.isInitialized then
    .error .destroyNotInitialized
  else
    .ok { s with flags := s.flags.setIsInitialized false }

/-- `CoreObject::initialize_internal()`: on the core-thread path, sets the
initialized flag under the shared mutex, clears the scheduled-for-init flag,
and broadcasts the shared condition variable; on the synchronous path it only
sets the initialized flag. -/
def CoreObject.initialize_internal (s : EngineState) : EngineState :=
  if s.flags.requiresInitOnCoreThread then
    let s1 := { s with flags := s.flags.setIsInitialized true }
    let s2 := { s1 with flags := s1.flags.setScheduledToBeInitialized false }
    { s2 with broadcasts := s2.broadcasts + 1 }
  else
    { s with flags := s.flags.setIsInitialized true }

/-- `CoreObject::queueInitializeGpuCommand`: appends a command binding
`initialize_internal` to the core-thread queue; the bound `shared_ptr`
(`hasRef`) keeps a strong reference while the command is queued. -/
def CoreObject.queueInitializeGpuCommand (hasRef : Bool) (s : EngineState) : EngineState :=
  { s with
    queue := s.queue ++ [⟨CmdKind.initCmd, hasRef⟩]
    pendingCmdRefs := s.pendingCmdRefs + (if hasRef then 1 else 0) }

/-- `CoreObject::queueDestroyGpuCommand`: appends a command binding
`destroy_internal` to the core-thread queue; the bound `shared_ptr`
(`hasRef`) keeps a strong reference while the command is queued. -/
def CoreObject.queueDestroyGpuCommand (hasRef : Bool) (s : EngineState) : EngineState :=
  { s with
    queue := s.queue ++ [⟨CmdKind.destroyCmd, hasRef⟩]
    pendingCmdRefs := s.pendingCmdRefs + (if hasRef then 1 else 0) }

/-- `CoreObject::initialize()`: debug-mode fatal when already initialized or
already scheduled; on the deferred path sets the scheduled-for-init flag and
either calls `initialize_internal` directly through `mThis.lock()` (core
thread) or queues the init command with the locked strong handle (other
threads); on the synchronous path calls `initialize_internal` directly.
`onCoreThread` is the `CM_THREAD_CURRENT_ID == getCoreThreadId()` test. -/
def CoreObject.initialize (dbg onCoreThread : Bool) (s : EngineState) :
    Except CmError EngineState :=
  if dbg && (s.flags.isInitialized || s.flags.isScheduledToBeInitialized) then
    .error .alreadyInitialized
  else if s.flags.requiresInitOnCoreThread then
    let s1 := { s with flags := s.flags.setScheduledToBeInitialized true }
    if onCoreThread then
      if lockThis s1 then .ok (CoreObject.initialize_internal s1) else .error .nullThis
    else
      .ok (CoreObject.queueInitializeGpuCommand (lockThis s1) s1)
  else
    .ok (CoreObject.initialize_internal s)

/-- `CoreObject::destroy()`: on the deferred path sets the
scheduled-to-be-deleted flag and either calls `destroy_internal` directly
through `mThis.lock()` (core thread) or queues the destroy command with the
locked strong handle (other threads); on the synchronous path calls
`destroy_internal` directly. -/
def CoreObject.destroy (dbg onCoreThread : Bool) (s : EngineState) :
    Except CmError EngineState :=
  if s.flags.requiresInitOnCoreThread then
    let s1 := { s with flags := s.flags.setScheduledToBeDeleted true }
    if onCoreThread then
      if lockThis s1 then CoreObject.destroy_internal dbg s1 else .error .nullThis
    else
      .ok (CoreObject.queueDestroyGpuCommand (lockThis s1) s1)
  else
    CoreObject.destroy_internal dbg s

/-- `CoreObject::_deleteDelayed` — the custom `shared_ptr` deleter that runs
when the strong-reference count reaches zero.
Modelled from the spec: only its helper `_deleteDelayedInternal` (the
debug-mode scheduled-for-init check) is in the sources; the deleter template
itself lives in the missing header. Per the spec's self-resurrection
protocol and the comment block in `_deleteDelayedInternal`: a
not-initialized object is freed right away; an initialized object instead
gets a fresh temporary strong handle, `_setThisPtr` re-binds `mThis` to it,
and `destroy()` is invoked with it; the raw deallocation happens only once
every strong reference (including that temporary one) is gone. -/
def CoreObject.deleteDelayed (dbg onCoreThread : Bool) (s : EngineState) :
    Except CmError EngineState :=
  if dbg && s.flags.isScheduledToBeInitialized then
    .error .deletedWhileScheduledInit
  else if s.flags.isInitialized then
    let s1 := { s with tempRefs := s.tempRefs + 1, thisBound := true }
    match CoreObject.destroy dbg onCoreThread s1 with
    | .error e => .error e
    | .ok s2 =>
      let s3 := { s2 with tempRefs := s2.tempRefs - 1 }
      if totalRefs s3 = 0 then CoreObject.destructorRun dbg s3 else .ok s3
  else
    CoreObject.destructorRun dbg s

/-- Release of one external strong reference; when it was the last strong
reference of the group, the custom deleter `_deleteDelayed` runs. -/
def releaseExtRef (dbg onCoreThread : Bool) (s : EngineState) : Except CmError EngineState :=
  let s1 := { s with extRefs := s.extRefs - 1 }
  if totalRefs s1 = 0 then CoreObject.deleteDelayed dbg onCoreThread s1 else .ok s1

/-- The core thread dequeues and runs the front command.
Modelled from the spec: the FIFO drain loop itself (`CmCoreThread`) is not in
the sources; commands execute on the core thread strictly in submission
order. Each command is `executeGpuCommand` applied to the captured
`shared_ptr` and the bound member function: it runs the bound
`initialize_internal` or `destroy_internal` (dereferencing a null capture is
the `nullThis` error), then the command object is destroyed, dropping its
captured strong reference; when that was the last strong reference the
custom deleter runs, on the core thread. -/
def executeNextCommand (dbg : Bool) (s : EngineState) : Except CmError EngineState :=
  match s.queue with
  | [] => .ok s
  | c :: rest =>
    let s1 := { s with queue := rest }
    let run : Except CmError EngineState :=
      if c.hasRef then
        match c.kind with
        | .initCmd => .ok (CoreObject.initialize_internal s1)
        | .destroyCmd => CoreObject.destroy_internal dbg s1
      else
        .error .nullThis
    match run with
    | .error e => .error e
    | .ok s2 =>
      let s3 := { s2 with pendingCmdRefs := s2.pendingCmdRefs - 1 }
      if totalRefs s3 = 0 then CoreObject.deleteDelayed dbg true s3 else .ok s3

/-- Outcome of a call to `synchronize()`: it returned, it is (still) blocked
on the shared condition variable, or it raised a fatal error. -/
inductive SyncOutcome where
  | returns
  | blocks
  | fatal : CmError → SyncOutcome
deriving Repr, DecidableEq

/-- Result of `synchronize()` together with whether the call ever acquired
the shared mutex `mCoreGpuObjectLoadedMutex`. -/
structure SyncResult where
  outcome : SyncOutcome
  lockedMutex : Bool
deriving Repr, DecidableEq

/-- The `while(!isInitialized())` wait loop of `CoreObject::synchronize`,
applied to the successive snapshots of the object's flags it observes under
the mutex (the entry snapshot, then one per condition-variable wakeup): exit
and return when initialized; fatal when no longer scheduled to be
initialized; otherwise wait again. An exhausted snapshot list means the call
is still blocked in `CM_THREAD_WAIT`. -/
def syncWaitLoop : List Flags → SyncOutcome
  | [] => .blocks
  | f :: rest =>
    if f.isInitialized then .returns
    else if !f.isScheduledToBeInitialized then .fatal .syncNotScheduled
    else syncWaitLoop rest

/-- `CoreObject::synchronize()`: returns at once (never touching the shared
mutex) when the object is initialized; otherwise, on the deferred path,
debug-mode fatal when called from the core thread, else blocks in the wait
loop over the observed flag snapshots; on the non-deferred path fatal, since
nothing will ever signal the object. -/
def CoreObject.synchronize (dbg onCoreThread : Bool) (f : Flags) (wakeups : List Flags) :
    SyncResult :=
  if !f.isInitialized then
    if f.requiresInitOnCoreThread then
      if dbg && onCoreThread then
        { outcome := .fatal .syncDeadlock, lockedMutex := false }
      else
        { outcome := syncWaitLoop (f :: wakeups), lockedMutex := true }
    else
      { outcome := .fatal .syncNotScheduled, lockedMutex := false }
  else
    { outcome := .returns, lockedMutex := false }

/-- `CoreObject::_setThisPtr`: binds the weak self-pointer. -/
def CoreObject.setThisPtr (s : EngineState) : EngineState := { s with thisBound := true }

/-! ## Helper lemmas about the synchronize wait loop -/

/-- While every observed snapshot is still pending (not initialized, still
scheduled), the wait loop keeps waiting. -/
theorem syncWaitLoop_blocks_of_pending (l : List Flags)
    (h : ∀ g ∈ l, g.isInitialized = false ∧ g.isScheduledToBeInitialized = true) :
    syncWaitLoop l = SyncOutcome.blocks := by
  induction l with
  | nil => rfl
  | cons g rest ih =>
    have hg := h g (List.mem_cons_self g rest)
    have hrest : ∀ x ∈ rest, x.isInitialized = false ∧ x.isScheduledToBeInitialized = true :=
      fun x hx => h x (List.mem_cons_of_mem g hx)
    simp [syncWaitLoop, hg.1, hg.2, ih hrest]

/-- After any number of pending snapshots, a snapshot that is neither
initialized nor scheduled makes the wait loop fail fatally. -/
theorem syncWaitLoop_fatal_of_unscheduled (pre : List Flags) (f : Flags) (post : List Flags)
    (hpre : ∀ g ∈ pre, g.isInitialized = false ∧ g.isScheduledToBeInitialized = true)
    (hi : f.isInitialized = false) (hs : f.isScheduledToBeInitialized = false) :
    syncWaitLoop (pre ++ f :: post) = SyncOutcome.fatal CmError.syncNotScheduled := by
  induction pre with
  | nil => simp [syncWaitLoop, hi, hs]
  | cons g rest ih =>
    have hg := hpre g (List.mem_cons_self g rest)
    have hrest : ∀ x ∈ rest, x.isInitialized = false ∧ x.isScheduledToBeInitialized = true :=
      fun x hx => hpre x (List.mem_cons_of_mem g hx)
    simp [syncWaitLoop, hg.1, hg.2, ih hrest]

/-! ## The claims -/

/-- C3: For a resource with `requiresCoreThreadInit = false`, `initialize()`
leaves the resource Initialized before it returns and `destroy()` leaves it
Destroyed (initialized flag cleared) before it returns, both synchronously on
the calling thread: no command is queued by either call. -/
theorem synchronous_initialize_then_destroy (dbg onCore : Bool) (s : EngineState)
    (hco : s.flags.initOnCoreThread = false)
    (hi : s.flags.initialized = false)
    (hsi : s.flags.scheduledInit = false) :
    ∃ s1 s2,
      CoreObject.initialize dbg onCore s = .ok s1 ∧
      s1.flags.isInitialized = true ∧
      s1.queue = s.queue ∧
      CoreObject.destroy dbg onCore s1 = .ok s2 ∧
      s2.flags.isInitialized = false ∧
      s2.queue = s.queue := by
  refine ⟨{ s with flags := s.flags.setIsInitialized true },
          { s with flags := (s.flags.setIsInitialized true).setIsInitialized false },
          ?_, ?_, ?_, ?_, ?_, ?_⟩ <;>
    simp [ CoreObject.initialize, CoreObject.destroy, CoreObject.initialize_internal,
      CoreObject.destroy_internal, Flags.isInitialized, Flags.isScheduledToBeInitialized,
      Flags.requiresInitOnCoreThread, Flags.setIsInitialized, hco, hi, hsi]

/-- C6: Calling `synchronize()` on a resource that was never scheduled for
initialization (neither initialized nor scheduled) fails fatally, for every
debug setting, calling thread, and wakeup schedule — it neither blocks nor
returns normally. -/
theorem synchronize_never_scheduled_fatal (dbg onCore : Bool) (f : Flags) (w : List Flags)
    (hi : f.isInitialized = false) (hs : f.isScheduledToBeInitialized = false) :
    ∃ e, (CoreObject.synchronize dbg onCore f w).outcome = SyncOutcome.fatal e := by
  unfold CoreObject.synchronize
  cases hc : f.requiresInitOnCoreThread with
  | false => exact ⟨CmError.syncNotScheduled, by simp [hi, hc]⟩
  | true =>
    by_cases hdo : dbg = true ∧ onCore = true
    · exact ⟨CmError.syncDeadlock, by simp [hi, hc, hdo]⟩
    · exact ⟨CmError.syncNotScheduled, by simp [hi, hc, hdo, syncWaitLoop, hs]⟩

/-- C9: Calling `synchronize()` on a resource that is already Initialized
returns immediately: no blocking, no fatal error, and the shared mutex is
never acquired — for every caller, including the core thread itself. -/
theorem synchronize_initialized_returns_immediately (dbg onCore : Bool) (f : Flags)
    (w : List Flags) (hi : f.isInitialized = true) :
    CoreObject.synchronize dbg onCore f w =
      { outcome := SyncOutcome.returns, lockedMutex := false } := by
  simp [CoreObject.synchronize, Flags.isInitialized] at *
  simp [hi]

/-- C7 counterexample: `synchronize()` called from the core thread (debug mode
on) on a resource that is already Initialized returns normally instead of
failing fatally, so the claim does not hold for every resource in every
state. -/
theorem synchronize_core_thread_initialized_returns :
    CoreObject.synchronize true true
      { initialized := true, scheduledInit := false, scheduledDelete := false,
        initOnCoreThread := true } [] =
      { outcome := SyncOutcome.returns, lockedMutex := false } := rfl

/-- C7 (amended): in debug mode, calling `synchronize()` from the core thread
on a not-yet-initialized resource fails fatally — with the deadlock error on
the deferred path and the not-scheduled error on the synchronous path; an
already-initialized resource returns normally even from the core thread. -/
theorem synchronize_core_thread_uninitialized_fatal (f : Flags) (w : List Flags)
    (hi : f.isInitialized = false) :
    (CoreObject.synchronize true true f w).outcome =
      (if f.requiresInitOnCoreThread then SyncOutcome.fatal CmError.syncDeadlock
       else SyncOutcome.fatal CmError.syncNotScheduled) := by
  unfold CoreObject.synchronize
  cases hc : f.requiresInitOnCoreThread <;> simp [hi, hc]

/-- C5 counterexample: the destructor of an object in state ScheduledForInit
(scheduled-for-init flag set, not initialized) whose weak self-reference is
expired completes normally — unregistering and deallocating — instead of
raising a fatal error, even in debug mode. -/
theorem destructor_scheduledForInit_completes :
    CoreObject.destructorRun true
      { flags := { initialized := false, scheduledInit := true, scheduledDelete := false,
                   initOnCoreThread := true },
        extRefs := 0, pendingCmdRefs := 0, tempRefs := 0, thisBound := false,
        queue := [], broadcasts := 0, registered := true, deallocated := false } =
      .ok { flags := { initialized := false, scheduledInit := true, scheduledDelete := false,
                       initOnCoreThread := true },
            extRefs := 0, pendingCmdRefs := 0, tempRefs := 0, thisBound := false,
            queue := [], broadcasts := 0, registered := false, deallocated := true } := rfl

/-- C5 (amended): the destructor raises a fatal error exactly when the object
still reports `isInitialized()` — which covers the states Initialized and
ScheduledForDestroy, both of which keep the initialized flag set — or, in
debug mode, when the weak self-reference still resolves to live strong
references (which is what catches a ScheduledForInit object whose queued init
command still holds a strong reference); otherwise, in particular for a
ScheduledForInit object with no live references, it completes and unregisters
the object. -/
theorem destructor_fatal_exactly_when (dbg : Bool) (s : EngineState) :
    (s.flags.isInitialized = true →
      CoreObject.destructorRun dbg s = .error CmError.destructorNotDestroyed) ∧
    (s.flags.isInitialized = false → dbg = true → thisExpired s = false →
      CoreObject.destructorRun dbg s = .error CmError.destructorLiveRefs) ∧
    (s.flags.isInitialized = false → (dbg && !thisExpired s) = false →
      CoreObject.destructorRun dbg s =
        .ok { s with registered := false, deallocated := true }) := by
  refine ⟨fun h1 => ?_, fun h1 h2 h3 => ?_, fun h1 h2 => ?_⟩ <;>
    simp [CoreObject.destructorRun, h1, *]

/-- C10: a waiter blocked in `synchronize()` re-checks both the initialized
flag and the scheduled-for-init flag at each wakeup: if, after any number of
wakeups that still found the resource pending, a wakeup finds it neither
Initialized nor ScheduledForInit, `synchronize()` raises the fatal
not-scheduled error instead of blocking forever. -/
theorem synchronize_wakeup_unscheduled_fatal (dbg : Bool) (f0 : Flags)
    (pre : List Flags) (f : Flags) (post : List Flags)
    (h0c : f0.requiresInitOnCoreThread = true)
    (h0i : f0.isInitialized = false) (h0s : f0.isScheduledToBeInitialized = true)
    (hpre : ∀ g ∈ pre, g.isInitialized = false ∧ g.isScheduledToBeInitialized = true)
    (hi : f.isInitialized = false) (hs : f.isScheduledToBeInitialized = false) :
    (CoreObject.synchronize dbg false f0 (pre ++ f :: post)).outcome =
      SyncOutcome.fatal CmError.syncNotScheduled := by
  have hall : ∀ g ∈ f0 :: pre, g.isInitialized = false ∧ g.isScheduledToBeInitialized = true := by
    intro g hg
    rcases List.mem_cons.mp hg with hg | hg
    · exact hg ▸ ⟨h0i, h0s⟩
    · exact hpre g hg
  have hloop := syncWaitLoop_fatal_of_unscheduled (f0 :: pre) f post hall hi hs
  unfold CoreObject.synchronize
  simp only [h0i, h0c, Bool.not_false, if_true, Bool.false_and, Bool.and_false]
  simpa using hloop

/-- C1: for a resource requiring core-thread init, `initialize()` called from
a non-core thread leaves the resource ScheduledForInit — not Initialized —
with the init command (holding a strong reference) queued, before it returns;
a concurrent `synchronize()` whose wakeups all still observe the pending
state stays blocked and does not return; when the core thread executes the
queued command the resource becomes Initialized, the scheduled-for-init flag
is cleared, the shared condition variable is broadcast, and `synchronize()`
then returns. -/
theorem deferred_initialize_protocol (dbg : Bool) (s : EngineState) (w : List Flags)
    (hco : s.flags.initOnCoreThread = true)
    (hi : s.flags.initialized = false)
    (hsi : s.flags.scheduledInit = false)
    (hb : s.thisBound = true)
    (hr : 0 < s.extRefs)
    (hq : s.queue = [])
    (hw : ∀ g ∈ w, g.isInitialized = false ∧ g.isScheduledToBeInitialized = true) :
    ∃ s1 s2,
      CoreObject.initialize dbg false s = .ok s1 ∧
      s1.flags.isScheduledToBeInitialized = true ∧
      s1.flags.isInitialized = false ∧
      s1.queue = [⟨CmdKind.initCmd, true⟩] ∧
      (CoreObject.synchronize dbg false s1.flags w).outcome = SyncOutcome.blocks ∧
      executeNextCommand dbg s1 = .ok s2 ∧
      s2.flags.isInitialized = true ∧
      s2.flags.isScheduledToBeInitialized = false ∧
      s2.broadcasts = s.broadcasts + 1 ∧
      (CoreObject.synchronize dbg false s2.flags w).outcome = SyncOutcome.returns := by
  have hpos : 0 < s.extRefs + s.pendingCmdRefs + s.tempRefs := by omega
  have hne : s.extRefs ≠ 0 := by omega
  refine ⟨{ s with
              flags := s.flags.setScheduledToBeInitialized true
              queue := [⟨CmdKind.initCmd, true⟩]
              pendingCmdRefs := s.pendingCmdRefs + 1 },
          { s with
              flags := { initialized := true
                         scheduledInit := false
                         scheduledDelete := s.flags.scheduledDelete
                         initOnCoreThread := true }
              queue := []
              pendingCmdRefs := s.pendingCmdRefs + 1 - 1
              broadcasts := s.broadcasts + 1 },
          ?_, ?_, ?_, ?_, ?_, ?_, ?_, ?_, ?_, ?_⟩
  · simp [ CoreObject.initialize, CoreObject.queueInitializeGpuCommand, lockThis, totalRefs,
      Flags.isInitialized, Flags.isScheduledToBeInitialized, Flags.requiresInitOnCoreThread,
      hco, hi, hsi, hb, hpos, hq]
  · simp [Flags.isScheduledToBeInitialized, Flags.setScheduledToBeInitialized]
  · simp [Flags.isInitialized, Flags.setScheduledToBeInitialized, hi]
  · rfl
  · have hblock := syncWaitLoop_blocks_of_pending
      ((s.flags.setScheduledToBeInitialized true) :: w)
      (by
        intro g hg
        rcases List.mem_cons.mp hg with hg | hg
        · subst hg
          simp [Flags.isInitialized, Flags.isScheduledToBeInitialized,
            Flags.setScheduledToBeInitialized, hi]
        · exact hw g hg)
    simp only [Flags.setScheduledToBeInitialized, hi, hco] at hblock
    simp [CoreObject.synchronize, Flags.isInitialized, Flags.requiresInitOnCoreThread,
      Flags.setScheduledToBeInitialized, hi, hco, hblock]
  · simp [executeNextCommand, CoreObject.initialize_internal, Flags.requiresInitOnCoreThread,
      Flags.setIsInitialized, Flags.setScheduledToBeInitialized, totalRefs, hco, hne]
  · simp [Flags.isInitialized]
  · simp [Flags.isScheduledToBeInitialized]
  · rfl
  · simp [CoreObject.synchronize, Flags.isInitialized]

/-- C2: dropping the last external strong reference to an Initialized,
core-thread-requiring resource does not deallocate it: the delayed-deletion
path resurrects ownership and queues a destroy command that itself holds a
strong reference; the object is deallocated only after the core thread has
executed that queued destroy command. -/
theorem queued_destroy_keeps_object_alive (dbg : Bool) (s : EngineState)
    (hco : s.flags.initOnCoreThread = true)
    (hi : s.flags.initialized = true)
    (hsi : s.flags.scheduledInit = false)
    (hd : s.deallocated = false)
    (he : s.extRefs = 1) (hp : s.pendingCmdRefs = 0) (ht : s.tempRefs = 0)
    (hq : s.queue = []) :
    ∃ s1 s2,
      releaseExtRef dbg false s = .ok s1 ∧
      s1.deallocated = false ∧
      s1.pendingCmdRefs = 1 ∧
      s1.queue = [⟨CmdKind.destroyCmd, true⟩] ∧
      executeNextCommand dbg s1 = .ok s2 ∧
      s2.flags.isInitialized = false ∧
      s2.deallocated = true := by
  rcases s with ⟨⟨a, b, c, d⟩, er, pr, tr, tb, q, bc, rg, da⟩
  dsimp only at hco hi hsi hd he hp ht hq
  subst hco hi hsi hd he hp ht hq
  refine ⟨⟨⟨true, false, true, true⟩, 0, 1, 0, true, [⟨CmdKind.destroyCmd, true⟩], bc, rg, false⟩,
          ⟨⟨false, false, true, true⟩, 0, 0, 0, true, [], bc, false, true⟩,
          ?_, rfl, rfl, rfl, ?_, rfl, rfl⟩
  · simp [releaseExtRef, CoreObject.deleteDelayed, CoreObject.destroy,
      CoreObject.queueDestroyGpuCommand, lockThis, totalRefs, CoreObject.destructorRun,
      Flags.isInitialized, Flags.isScheduledToBeInitialized, Flags.requiresInitOnCoreThread,
      Flags.setScheduledToBeDeleted]
  · simp [executeNextCommand, CoreObject.destroy_internal, CoreObject.deleteDelayed,
      CoreObject.destructorRun, thisExpired, totalRefs, lockThis,
      Flags.isInitialized, Flags.isScheduledToBeInitialized, Flags.setIsInitialized]

/-- The flag combination reached by the C4 counterexample execution:
initialized and scheduled-to-be-deleted at the same time. -/
def overlapFlags : Flags :=
  { initialized := true
    scheduledInit := false
    scheduledDelete := true
    initOnCoreThread := true }

/-- C4 counterexample: a concrete execution — construct a core-thread-init
resource, wrap it in shared ownership, call `initialize()` from a non-core
thread, let the core thread execute the queued init command, then call
`destroy()` from a non-core thread — ends in a state whose flags satisfy both
the Initialized predicate (`isInitialized`) and the ScheduledForDestroy
predicate (`isScheduledToBeDestroyed`) at the same observable point, so the
resource is simultaneously in two of the claimed five states. -/
theorem initialized_and_scheduledForDestroy_simultaneously :
    (( CoreObject.initialize true false (wrapShared (CoreObject.construct true))).bind
        (fun s1 => (executeNextCommand true s1).bind
          (fun s2 => CoreObject.destroy true false s2))) =
      .ok { flags := overlapFlags
            extRefs := 1
            pendingCmdRefs := 1
            tempRefs := 0
            thisBound := true
            queue := [⟨CmdKind.destroyCmd, true⟩]
            broadcasts := 1
            registered := true
            deallocated := false } ∧
    overlapFlags.isInitialized = true ∧
    overlapFlags.isScheduledToBeDestroyed = true := by
  refine ⟨?_, rfl, rfl⟩
  rfl

/-- C4 (amended): at the flag level the five states are not mutually
exclusive during transition windows: on the deferred destroy path the object
satisfies both `isInitialized` and `isScheduledToBeDestroyed` from the moment
`destroy()` returns until the core thread executes the queued destroy
command, which clears the initialized flag (reaching Destroyed); the
exactly-one-state reading holds only for a derived state function over the
flags, not for the flag predicates themselves. -/
theorem deferred_destroy_overlap_window (dbg : Bool) (s : EngineState)
    (hco : s.flags.initOnCoreThread = true)
    (hi : s.flags.initialized = true)
    (hb : s.thisBound = true)
    (hr : 0 < s.extRefs)
    (hq : s.queue = []) :
    ∃ s1 s2,
      CoreObject.destroy dbg false s = .ok s1 ∧
      s1.flags.isInitialized = true ∧
      s1.flags.isScheduledToBeDestroyed = true ∧
      executeNextCommand dbg s1 = .ok s2 ∧
      s2.flags.isInitialized = false ∧
      s2.flags.isScheduledToBeDestroyed = true := by
  rcases s with ⟨⟨a, b, c, d⟩, er, pr, tr, tb, q, bc, rg, da⟩
  dsimp only at hco hi hb hr hq
  subst hco hi hb hq
  have her : er ≠ 0 := by omega
  refine ⟨⟨⟨true, b, true, true⟩, er, pr + 1, tr, true, [⟨CmdKind.destroyCmd, true⟩], bc, rg, da⟩,
          ⟨⟨false, b, true, true⟩, er, pr + 1 - 1, tr, true, [], bc, rg, da⟩,
          ?_, rfl, rfl, ?_, rfl, rfl⟩
  · have hlt : 0 < er + pr + tr := by omega
    simp [CoreObject.destroy, CoreObject.queueDestroyGpuCommand, lockThis, totalRefs,
      Flags.requiresInitOnCoreThread, Flags.setScheduledToBeDeleted, hlt]
  · simp [executeNextCommand, CoreObject.destroy_internal, totalRefs,
      Flags.isInitialized, Flags.setIsInitialized, her]

/-- C8: `initialize()` and `destroy()` on a core-thread-init resource promote
the weak self-reference `mThis` to a strong handle and hand it to the direct
or queued internal path: the promotion yields a valid handle exactly when the
self-pointer was bound by `_setThisPtr` and some strong reference is still
alive; when it does, the queued command holds one strong reference of its
own; when it does not, the direct core-thread path dereferences a null
handle. -/
theorem selfReference_promotion_precondition (dbg : Bool) (s : EngineState)
    (hco : s.flags.initOnCoreThread = true)
    (hi : s.flags.initialized = false)
    (hsi : s.flags.scheduledInit = false) :
    (lockThis s = true ↔ (s.thisBound = true ∧ 0 < totalRefs s)) ∧
    (lockThis s = true →
      ∃ s1, CoreObject.initialize dbg false s = .ok s1 ∧
        s1.pendingCmdRefs = s.pendingCmdRefs + 1 ∧
        s1.queue = s.queue ++ [⟨CmdKind.initCmd, true⟩]) ∧
    (lockThis s = true →
      ∃ s1, CoreObject.destroy dbg false s = .ok s1 ∧
        s1.pendingCmdRefs = s.pendingCmdRefs + 1 ∧
        s1.queue = s.queue ++ [⟨CmdKind.destroyCmd, true⟩]) ∧
    (lockThis s = false → CoreObject.initialize dbg true s = .error CmError.nullThis) ∧
    (lockThis s = false → CoreObject.destroy dbg true s = .error CmError.nullThis) := by
  rcases s with ⟨⟨a, b, c, d⟩, er, pr, tr, tb, q, bc, rg, da⟩
  dsimp only at hco hi hsi
  subst hco hi hsi
  refine ⟨by simp [lockThis, totalRefs], fun hl => ?_, fun hl => ?_, fun hl => ?_, fun hl => ?_⟩
  · simp only [lockThis, totalRefs] at hl
    rw [Bool.and_eq_true] at hl
    obtain ⟨h1, h2⟩ := hl
    have h2lt : 0 < er + pr + tr := of_decide_eq_true h2
    subst h1
    refine ⟨⟨⟨false, true, c, true⟩, er, pr + 1, tr, true, q ++ [⟨CmdKind.initCmd, true⟩],
             bc, rg, da⟩, ?_, rfl, rfl⟩
    simp [ CoreObject.initialize, CoreObject.queueInitializeGpuCommand, lockThis, totalRefs,
      Flags.isInitialized, Flags.isScheduledToBeInitialized, Flags.requiresInitOnCoreThread,
      Flags.setScheduledToBeInitialized, h2lt]
  · simp only [lockThis, totalRefs] at hl
    rw [Bool.and_eq_true] at hl
    obtain ⟨h1, h2⟩ := hl
    have h2lt : 0 < er + pr + tr := of_decide_eq_true h2
    subst h1
    refine ⟨⟨⟨false, false, true, true⟩, er, pr + 1, tr, true, q ++ [⟨CmdKind.destroyCmd, true⟩],
             bc, rg, da⟩, ?_, rfl, rfl⟩
    simp [CoreObject.destroy, CoreObject.queueDestroyGpuCommand, lockThis, totalRefs,
      Flags.requiresInitOnCoreThread, Flags.setScheduledToBeDeleted, h2lt]
  · simp only [lockThis, totalRefs] at hl
    cases tb with
    | false =>
      simp [ CoreObject.initialize, lockThis, totalRefs, Flags.isInitialized,
        Flags.isScheduledToBeInitialized, Flags.requiresInitOnCoreThread,
        Flags.setScheduledToBeInitialized]
    | true =>
      simp only [Bool.true_and] at hl
      have hz : er + pr + tr = 0 := by
        have := of_decide_eq_false hl
        omega
      simp [ CoreObject.initialize, lockThis, totalRefs, Flags.isInitialized,
        Flags.isScheduledToBeInitialized, Flags.requiresInitOnCoreThread,
        Flags.setScheduledToBeInitialized, hz]
  · simp only [lockThis, totalRefs] at hl
    cases tb with
    | false =>
      simp [CoreObject.destroy, lockThis, totalRefs, Flags.requiresInitOnCoreThread,
        Flags.setScheduledToBeDeleted]
    | true =>
      simp only [Bool.true_and] at hl
      have hz : er + pr + tr = 0 := by
        have := of_decide_eq_false hl
        omega
      simp [CoreObject.destroy, lockThis, totalRefs, Flags.requiresInitOnCoreThread,
        Flags.setScheduledToBeDeleted, hz]

/-! ## Concrete instantiations -/

/-- A freshly constructed core-thread-init resource wrapped in shared
ownership. -/
def freshDeferred : EngineState := wrapShared (CoreObject.construct true)

/-- A freshly constructed synchronous (non-core-thread-init) resource wrapped
in shared ownership. -/
def freshSync : EngineState := wrapShared (CoreObject.construct false)

/-- An Initialized core-thread-init resource holding one external strong
reference. -/
def initializedDeferred : EngineState :=
  { flags := { initialized := true
               scheduledInit := false
               scheduledDelete := false
               initOnCoreThread := true }
    extRefs := 1
    pendingCmdRefs := 0
    tempRefs := 0
    thisBound := true
    queue := []
    broadcasts := 0
    registered := true
    deallocated := false }

theorem synchronous_initialize_then_destroy_witness :
    ∃ s1 s2,
      CoreObject.initialize true false freshSync = .ok s1 ∧
      s1.flags.isInitialized = true ∧
      s1.queue = freshSync.queue ∧
      CoreObject.destroy true false s1 = .ok s2 ∧
      s2.flags.isInitialized = false ∧
      s2.queue = freshSync.queue :=
  synchronous_initialize_then_destroy true false freshSync rfl rfl rfl

theorem synchronize_never_scheduled_fatal_witness :
    ∃ e, (CoreObject.synchronize true false
      { initialized := false, scheduledInit := false, scheduledDelete := false,
        initOnCoreThread := true } []).outcome = SyncOutcome.fatal e :=
  synchronize_never_scheduled_fatal true false
    { initialized := false, scheduledInit := false, scheduledDelete := false,
      initOnCoreThread := true } [] rfl rfl

theorem synchronize_initialized_returns_immediately_witness :
    CoreObject.synchronize true true
      { initialized := true, scheduledInit := false, scheduledDelete := false,
        initOnCoreThread := true } [] =
      { outcome := SyncOutcome.returns, lockedMutex := false } :=
  synchronize_initialized_returns_immediately true true
    { initialized := true, scheduledInit := false, scheduledDelete := false,
      initOnCoreThread := true } [] rfl

theorem synchronize_core_thread_uninitialized_fatal_witness :
    (CoreObject.synchronize true true
      { initialized := false, scheduledInit := true, scheduledDelete := false,
        initOnCoreThread := true } []).outcome =
      (if Flags.requiresInitOnCoreThread
          { initialized := false, scheduledInit := true, scheduledDelete := false,
            initOnCoreThread := true } then SyncOutcome.fatal CmError.syncDeadlock
       else SyncOutcome.fatal CmError.syncNotScheduled) :=
  synchronize_core_thread_uninitialized_fatal
    { initialized := false, scheduledInit := true, scheduledDelete := false,
      initOnCoreThread := true } [] rfl

theorem destructor_fatal_exactly_when_witness :
    CoreObject.destructorRun true initializedDeferred =
      .error CmError.destructorNotDestroyed :=
  (destructor_fatal_exactly_when true initializedDeferred).1 rfl

theorem synchronize_wakeup_unscheduled_fatal_witness :
    (CoreObject.synchronize true false
      { initialized := false, scheduledInit := true, scheduledDelete := false,
        initOnCoreThread := true }
      ([{ initialized := false, scheduledInit := true, scheduledDelete := false,
          initOnCoreThread := true }] ++
        { initialized := false, scheduledInit := false, scheduledDelete := false,
          initOnCoreThread := true } :: [])).outcome =
      SyncOutcome.fatal CmError.syncNotScheduled :=
  synchronize_wakeup_unscheduled_fatal true
    { initialized := false, scheduledInit := true, scheduledDelete := false,
      initOnCoreThread := true }
    [{ initialized := false, scheduledInit := true, scheduledDelete := false,
       initOnCoreThread := true }]
    { initialized := false, scheduledInit := false, scheduledDelete := false,
      initOnCoreThread := true } [] rfl rfl rfl (by decide) rfl rfl

theorem deferred_initialize_protocol_witness :
    ∃ s1 s2,
      CoreObject.initialize true false freshDeferred = .ok s1 ∧
      s1.flags.isScheduledToBeInitialized = true ∧
      s1.flags.isInitialized = false ∧
      s1.queue = [⟨CmdKind.initCmd, true⟩] ∧
      (CoreObject.synchronize true false s1.flags []).outcome = SyncOutcome.blocks ∧
      executeNextCommand true s1 = .ok s2 ∧
      s2.flags.isInitialized = true ∧
      s2.flags.isScheduledToBeInitialized = false ∧
      s2.broadcasts = freshDeferred.broadcasts + 1 ∧
      (CoreObject.synchronize true false s2.flags []).outcome = SyncOutcome.returns :=
  deferred_initialize_protocol true freshDeferred [] rfl rfl rfl rfl (by decide) rfl
    (by decide)

theorem queued_destroy_keeps_object_alive_witness :
    ∃ s1 s2,
      releaseExtRef true false initializedDeferred = .ok s1 ∧
      s1.deallocated = false ∧
      s1.pendingCmdRefs = 1 ∧
      s1.queue = [⟨CmdKind.destroyCmd, true⟩] ∧
      executeNextCommand true s1 = .ok s2 ∧
      s2.flags.isInitialized = false ∧
      s2.deallocated = true :=
  queued_destroy_keeps_object_alive true initializedDeferred rfl rfl rfl rfl rfl rfl rfl rfl

theorem deferred_destroy_overlap_window_witness :
    ∃ s1 s2,
      CoreObject.destroy true false initializedDeferred = .ok s1 ∧
      s1.flags.isInitialized = true ∧
      s1.flags.isScheduledToBeDestroyed = true ∧
      executeNextCommand true s1 = .ok s2 ∧
      s2.flags.isInitialized = false ∧
      s2.flags.isScheduledToBeDestroyed = true :=
  deferred_destroy_overlap_window true initializedDeferred rfl rfl rfl (by decide) rfl

theorem selfReference_promotion_precondition_witness :
    (lockThis freshDeferred = true ↔
      (freshDeferred.thisBound = true ∧ 0 < totalRefs freshDeferred)) ∧
    (lockThis freshDeferred = true →
      ∃ s1, CoreObject.initialize true false freshDeferred = .ok s1 ∧
        s1.pendingCmdRefs = freshDeferred.pendingCmdRefs + 1 ∧
        s1.queue = freshDeferred.queue ++ [⟨CmdKind.initCmd, true⟩]) ∧
    (lockThis freshDeferred = true →
      ∃ s1, CoreObject.destroy true false freshDeferred = .ok s1 ∧
        s1.pendingCmdRefs = freshDeferred.pendingCmdRefs + 1 ∧
        s1.queue = freshDeferred.queue ++ [⟨CmdKind.destroyCmd, true⟩]) ∧
    (lockThis freshDeferred = false →
      CoreObject.initialize true true freshDeferred = .error CmError.nullThis) ∧
    (lockThis freshDeferred = false →
      CoreObject.destroy true true freshDeferred = .error CmError.nullThis) :=
  selfReference_promotion_precondition true freshDeferred rfl rfl rfl
